import Mathlib

/-!
Verification of the DevPockit backend (FastAPI, `src/backend`) against its
natural-language specification.  The Python sources are shallowly embedded:
pure service functions become Lean functions, the SQLAlchemy-backed user table
becomes an explicit list of records threaded through the operations, Python
exceptions become `Except`, and JSON bodies become an inductive `Json` type.
-/

namespace DevPockit

/-- JSON values, as produced by Python's `json.loads`: objects, arrays,
strings, numbers, booleans and null.  Numbers are modelled as integers;
objects are ordered association lists, mirroring Python's insertion-ordered
`dict`. -/
inductive Json where
  | null : Json
  | bool (b : Bool) : Json
  | num (n : Int) : Json
  | str (s : String) : Json
  | arr (items : List Json) : Json
  | obj (fields : List (String × Json)) : Json
  deriving Inhabited

/-- Embedding of `ResponseSchema` (src/backend/app/schemas/base.py, lines
18-24): the standard API response envelope with fields `success`, `message`,
`data` (a JSON object or null) and `errors` (a JSON array or null). -/
structure ResponseSchema where
  success : Bool := true
  message : String := "Success"
  data : Option (List (String × Json)) := none
  errors : Option (List Json) := none

/-- Rendering of a `ResponseSchema` as the JSON body actually sent on the
wire: all four envelope fields are always serialized (absent options render
as JSON null). -/
def ResponseSchema.render (r : ResponseSchema) : Json :=
  Json.obj
    [ ("success", Json.bool r.success)
    , ("message", Json.str r.message)
    , ("data", match r.data with | none => Json.null | some kvs => Json.obj kvs)
    , ("errors", match r.errors with | none => Json.null | some xs => Json.arr xs) ]

/-- The four envelope keys required by the spec. -/
def envelopeKeys : List String := ["success", "message", "data", "errors"]

/-- A JSON body carries the envelope shape when it is an object containing
all four envelope keys. -/
def hasEnvelope (j : Json) : Bool :=
  match j with
  | Json.obj fields => envelopeKeys.all (fun k => fields.any (fun kv => kv.1 == k))
  | _ => false

/-- Embedding of the `/health` endpoint body (src/backend/main.py, lines
33-35): `return {"status": "healthy"}` — a plain dict, not a
`ResponseSchema`. -/
def health_check_response : Json := Json.obj [("status", Json.str "healthy")]

/-- Embedding of the root endpoint body (src/backend/main.py, lines 28-30):
`return {"message": "DevPockit API", "version": settings.VERSION}`. -/
def root_response : Json :=
  Json.obj [("message", Json.str "DevPockit API"), ("version", Json.str "1.0.0")]

/-- The persisted user row.  Modelled from the spec: §3 UserRecord
(`app/models/user.py` is not under src/): integer id assigned by the store,
unique email and username, password_hash, is_active, is_superuser and
created_at/updated_at timestamps. -/
structure UserRecord where
  id : Nat
  email : String
  username : String
  password_hash : String
  is_active : Bool
  is_superuser : Bool := false
  created_at : Nat := 0
  updated_at : Option Nat := none
  deriving Repr, DecidableEq

/-- The credential store: the user table as a list of rows plus the next
auto-assigned primary key. -/
structure Store where
  users : List UserRecord
  nextId : Nat
  deriving Repr, DecidableEq

/-- Embedding of `UserService.get_user_by_email` (user_service.py, lines
37-40): `db.query(User).filter(User.email == email).first()` — the first row
whose email matches, if any. -/
def get_user_by_email (users : List UserRecord) (email : String) : Option UserRecord :=
  users.find? (fun u => u.email == email)

/-- Embedding of `UserService.get_user_by_username` (user_service.py, lines
42-45): the first row whose username matches, if any. -/
def get_user_by_username (users : List UserRecord) (username : String) : Option UserRecord :=
  users.find? (fun u => u.username == username)

/-- Embedding of `UserService.authenticate_user` (user_service.py, lines
76-89), parametric in the password verifier `verify_password` from
`app.core.security` (not under src/): look up by username, then verify the
password against the stored hash, then check `is_active`; any failure returns
`None`. -/
def authenticate_user (verify_password : String → String → Bool)
    (users : List UserRecord) (username password : String) : Option UserRecord :=
  match get_user_by_username users username with
  | none => none
  | some user =>
    if !(verify_password password user.password_hash) then none
    else if !user.is_active then none
    else some user

/-- A bcrypt-class hash value.  Modelled from the spec: §4.1 Password Hasher
(`app/core/security.py` is not under src/): a salted one-way hash; the hash
string records the salt and the digest of salt and plaintext, so `verify`
can recompute the digest from the stored salt. -/
structure HashString where
  salt : Nat
  digest : String
  deriving Repr, DecidableEq

/-- Modelled from the spec: the digest computed over the salt and the
plaintext inside the Password Hasher. -/
def digestOf (salt : Nat) (plaintext : String) : String :=
  toString salt ++ "#" ++ plaintext

/-- Modelled from the spec: `hash(plaintext) -> hash_string`
(`get_password_hash` in `app.core.security`, not under src/), with the salt
made explicit. -/
def get_password_hash (salt : Nat) (plaintext : String) : HashString :=
  { salt := salt, digest := digestOf salt plaintext }

/-- Modelled from the spec: `verify(plaintext, hash_string) -> bool`
(`verify_password` in `app.core.security`, not under src/): recompute the
digest using the salt stored in the hash and compare. -/
def verify_password (plaintext : String) (h : HashString) : Bool :=
  h.digest == digestOf h.salt plaintext

/-- Token validation outcome kinds, from spec §4.2. -/
inductive ErrorKind where
  | InvalidToken : ErrorKind
  | ExpiredToken : ErrorKind
  deriving Repr, DecidableEq

/-- A signed bearer token.  Modelled from the spec: §3/§4.2 Token — an
opaque signed value encoding `{subject, expiry}` (`create_access_token` in
`app.core.security`, not under src/). -/
structure Token where
  subject : String
  expiry : Nat
  signature : Nat
  deriving Repr, DecidableEq

/-- Modelled from the spec: the symmetric signature over the payload using
the server-held secret (a stand-in deterministic MAC). -/
def signToken (secret : Nat) (subject : String) (expiry : Nat) : Nat :=
  (subject.data.map Char.toNat).foldl (fun a c => a * 37 + c) (secret * 131 + expiry)

/-- Modelled from the spec: `issue(subject, ttl) -> token`, signing the
subject together with the absolute expiry `issue_time + ttl`. -/
def issue (secret : Nat) (subject : String) (issue_time ttl : Nat) : Token :=
  { subject := subject
  , expiry := issue_time + ttl
  , signature := signToken secret subject (issue_time + ttl) }

/-- Modelled from the spec: `validate(token) -> subject | invalid`: verify
the signature against the server secret, then the expiry against the current
time; a token is valid strictly before its expiry. -/
def validate (secret : Nat) (now : Nat) (t : Token) : Except ErrorKind String :=
  if t.signature = signToken secret t.subject t.expiry then
    if t.expiry ≤ now then Except.error ErrorKind.ExpiredToken
    else Except.ok t.subject
  else Except.error ErrorKind.InvalidToken

/-- Python's `str.isalnum` (schemas/user.py line 29), modelled over ASCII
letters and digits: true exactly when the string is non-empty and every
character is alphanumeric. -/
def pyIsAlnum (s : String) : Bool :=
  !s.data.isEmpty && s.data.all Char.isAlphanum

/-- Embedding of `UserCreate.validate_password` (schemas/user.py, lines
19-23): reject passwords shorter than 8 characters. -/
def validate_password (v : String) : Except String String :=
  if v.length < 8 then Except.error "Password must be at least 8 characters long"
  else Except.ok v

/-- Embedding of `UserCreate.validate_username` (schemas/user.py, lines
25-31): reject usernames shorter than 3 characters or containing a
non-alphanumeric character. -/
def validate_username (v : String) : Except String String :=
  if v.length < 3 then Except.error "Username must be at least 3 characters long"
  else if !(pyIsAlnum v) then Except.error "Username must contain only letters and numbers"
  else Except.ok v

/-- The validated `UserCreate` payload (schemas/user.py, lines 6-31). -/
structure UserCreate where
  email : String
  username : String
  password : String
  is_active : Bool := true
  deriving Repr, DecidableEq

/-- Pydantic parsing of a `UserCreate` body: the `EmailStr` format check
(modelled by the parameter `emailOk`) and the two field validators each
contribute field-level error detail; the input is accepted exactly when no
field fails. -/
def parseUserCreate (emailOk : String → Bool) (email username password : String)
    (is_active : Bool) : Except (List String) UserCreate :=
  let errs :=
    (if emailOk email then [] else ["value is not a valid email address"]) ++
    (match validate_username username with
     | Except.error e => [e]
     | Except.ok _ => []) ++
    (match validate_password password with
     | Except.error e => [e]
     | Except.ok _ => [])
  if errs.isEmpty then
    Except.ok { email := email, username := username, password := password, is_active := is_active }
  else Except.error errs

/-- Embedding of `UserService.create_user` (user_service.py, lines 11-30):
hash the password, build the row (id assigned by the store, `is_superuser`
defaulting to false), and insert it.  Returns the created row and the
updated store. -/
def create_user (hash : String → String) (now : Nat) (s : Store) (uc : UserCreate) :
    UserRecord × Store :=
  let r : UserRecord :=
    { id := s.nextId
    , email := uc.email
    , username := uc.username
    , password_hash := hash uc.password
    , is_active := uc.is_active
    , is_superuser := false
    , created_at := now
    , updated_at := none }
  (r, { users := s.users ++ [r], nextId := s.nextId + 1 })

/-- An HTTPException raised by a handler: status code and detail string. -/
structure HttpError where
  status : Nat
  detail : String
  deriving Repr, DecidableEq

/-- Embedding of the body of the `register` endpoint (api/auth.py, lines
18-44): reject with 400 if the email is already registered, then with 400 if
the username is already taken, otherwise create the user.  The store is
returned unchanged on failure. -/
def register (hash : String → String) (now : Nat) (s : Store) (uc : UserCreate) :
    Except HttpError UserRecord × Store :=
  match get_user_by_email s.users uc.email with
  | some _ => (Except.error { status := 400, detail := "Email already registered" }, s)
  | none =>
    match get_user_by_username s.users uc.username with
    | some _ => (Except.error { status := 400, detail := "Username already taken" }, s)
    | none =>
      let rs := create_user hash now s uc
      (Except.ok rs.1, rs.2)

/-- An exception escaping the `try` body of a handler: either an
`HTTPException` (re-raised as is) or any other exception carrying its
`str(e)` message. -/
inductive PyExc where
  | httpExc (status : Nat) (detail : String) : PyExc
  | exc (msg : String) : PyExc
  deriving Repr, DecidableEq

/-- Embedding of the `except` clauses of `register` (api/auth.py, lines
46-52): an `HTTPException` propagates unchanged; any other exception `e` is
converted to a 500 whose detail is the f-string `"Registration failed: "`
followed by `str(e)`. -/
def registerCatch (body : Except PyExc ResponseSchema) : Except HttpError ResponseSchema :=
  match body with
  | Except.ok r => Except.ok r
  | Except.error (PyExc.httpExc st d) => Except.error { status := st, detail := d }
  | Except.error (PyExc.exc m) =>
      Except.error { status := 500, detail := "Registration failed: " ++ m }

/-- Embedding of the `except` clauses of `login` (api/auth.py, lines 89-95):
an `HTTPException` propagates unchanged; any other exception `e` becomes a
500 with detail `"Login failed: "` followed by `str(e)`. -/
def loginCatch (body : Except PyExc ResponseSchema) : Except HttpError ResponseSchema :=
  match body with
  | Except.ok r => Except.ok r
  | Except.error (PyExc.httpExc st d) => Except.error { status := st, detail := d }
  | Except.error (PyExc.exc m) =>
      Except.error { status := 500, detail := "Login failed: " ++ m }

/-- The external `uuid` library as seen by `ToolsService.generate_uuid`,
with one environment per call: `rand i` is the string of the i-th
`uuid.uuid4()` drawn during the call and `uuid1 i` the i-th `uuid.uuid1()`
(both nondeterministic across calls); `uuid5` is the deterministic name-based
UUID function and `parseUuid` the `uuid.UUID(ns)` constructor (`none` models
its `ValueError` on a malformed string). -/
structure UuidEnv where
  rand : Nat → String
  uuid1 : Nat → String
  uuid5 : String → String → String
  parseUuid : String → Option String

/-- Embedding of `ToolsService.generate_uuid` (tools_service.py, lines
60-85): versions 1 and 4 draw `count` fresh UUIDs; version 5 substitutes a
random v4 namespace when the given one is missing or empty (Python
falsiness), parses it, and derives `uuid5(namespace, "devpockit-i")` for
`i < count`; other versions raise.  Raised `ValueError`s are re-wrapped with
the `"UUID generation error: "` message. -/
def generate_uuid (env : UuidEnv) (version count : Nat) (nspace : Option String) :
    Except String (List String × Nat × Nat) :=
  if version = 1 then
    Except.ok (((List.range count).map env.uuid1), version, count)
  else if version = 4 then
    Except.ok (((List.range count).map env.rand), version, count)
  else if version = 5 then
    let ns : String :=
      match nspace with
      | none => env.rand 0
      | some s => if s = "" then env.rand 0 else s
    match env.parseUuid ns with
    | none => Except.error "UUID generation error: badly formed hexadecimal UUID string"
    | some nsU =>
        Except.ok (((List.range count).map (fun i => env.uuid5 nsU ("devpockit-" ++ toString i))),
          version, count)
  else Except.error ("UUID generation error: Unsupported UUID version: " ++ toString version)

/-- Embedding of the `format_json` endpoint (api/tools.py, lines 12-23):
the service outcome (result dict, or the raised exception's `str(e)`) is
turned into a `ResponseSchema`; every exception is caught and reported in
`errors`. -/
def format_json_endpoint (svc : Except String (List (String × Json))) : ResponseSchema :=
  match svc with
  | Except.ok result =>
      { success := true, message := "JSON formatted successfully"
      , data := some result, errors := none }
  | Except.error e =>
      { success := false, message := "JSON formatting failed"
      , data := none, errors := some [Json.str e] }

/-- Embedding of the `convert_yaml` endpoint (api/tools.py, lines 26-39):
same catch-all shape with its own messages. -/
def convert_yaml_endpoint (svc : Except String (List (String × Json))) : ResponseSchema :=
  match svc with
  | Except.ok result =>
      { success := true, message := "Conversion completed successfully"
      , data := some result, errors := none }
  | Except.error e =>
      { success := false, message := "Conversion failed"
      , data := none, errors := some [Json.str e] }

/-- The result dict returned by `ToolsService.generate_uuid`, rendered as
the JSON object `{"uuids": [...], "version": v, "count": c}`. -/
def uuidResultJson (r : List String × Nat × Nat) : List (String × Json) :=
  [ ("uuids", Json.arr (r.1.map Json.str))
  , ("version", Json.num r.2.1)
  , ("count", Json.num r.2.2) ]

/-- Embedding of the `generate_uuid` endpoint (api/tools.py, lines 42-55):
run the service and wrap success or any caught exception in a
`ResponseSchema`. -/
def generate_uuid_endpoint (env : UuidEnv) (version count : Nat) (nspace : Option String) :
    ResponseSchema :=
  match generate_uuid env version count nspace with
  | Except.ok result =>
      { success := true, message := "UUIDs generated successfully"
      , data := some (uuidResultJson result), errors := none }
  | Except.error e =>
      { success := false, message := "UUID generation failed"
      , data := none, errors := some [Json.str e] }

/-- Lexicographic order on character lists by code point, matching Python's
string comparison used by `yaml.dump(..., sort_keys=True)` (the default) to
order mapping keys. -/
def lexLe : List Char → List Char → Bool
  | [], _ => true
  | _ :: _, [] => false
  | a :: as, b :: bs =>
    if a.toNat < b.toNat then true
    else if b.toNat < a.toNat then false
    else lexLe as bs

/-- Key order on object entries: compare the keys by code point. -/
def keyLe (a b : String × Json) : Bool := lexLe a.1.data b.1.data

/-- Recursively sort every object's entries by key.  This is the data-level
effect of serializing with `yaml.dump` (which sorts mapping keys by default)
while leaving scalars, array order and values otherwise intact. -/
def Json.sortKeys : Json → Json
  | Json.null => Json.null
  | Json.bool b => Json.bool b
  | Json.num n => Json.num n
  | Json.str s => Json.str s
  | Json.arr items => Json.arr (items.attach.map (fun x => Json.sortKeys x.1))
  | Json.obj fields =>
      Json.obj ((fields.attach.map (fun kv => (kv.1.1, Json.sortKeys kv.1.2))).mergeSort keyLe)
decreasing_by
  · have h := List.sizeOf_lt_of_mem x.2
    simp only [Json.arr.sizeOf_spec]
    omega
  · have h := List.sizeOf_lt_of_mem kv.2
    obtain ⟨⟨k, v⟩, hm⟩ := kv
    simp only [Prod.mk.sizeOf_spec, Json.obj.sizeOf_spec] at h ⊢
    omega

/-- Modelled from the spec: the JSON→YAML direction of
`ToolsService.convert_yaml` (tools_service.py, lines 35-43) at the data
level: `json.loads` has produced the document `j`; `yaml.dump` (an external
library, with `sort_keys` defaulting to true) serializes it with every
mapping's keys sorted, preserving scalars, sequence order and nesting. -/
def convert_json_to_yaml_data (j : Json) : Json := j.sortKeys

/-- Modelled from the spec: the YAML→JSON direction of
`ToolsService.convert_yaml` (tools_service.py, lines 44-52) at the data
level: `yaml.safe_load` followed by `json.dumps` (external libraries)
preserves the document exactly. -/
def convert_yaml_to_json_data (j : Json) : Json := j

/-- The composite JSON→YAML→JSON round trip through `convert_yaml`. -/
def json_yaml_roundtrip (j : Json) : Json :=
  convert_yaml_to_json_data (convert_json_to_yaml_data j)

/-- Semantic equivalence of JSON documents up to object key order: the two
documents agree once every object's keys are put in canonical order. -/
def Json.equivUpToKeyOrder (a b : Json) : Prop :=
  a.sortKeys = b.sortKeys

/-- Structural induction for `Json` with membership hypotheses for the
elements of arrays and the values of objects. -/
def Json.recMem {P : Json → Prop} (hnull : P Json.null) (hbool : ∀ b, P (Json.bool b))
    (hnum : ∀ n, P (Json.num n)) (hstr : ∀ s, P (Json.str s))
    (harr : ∀ items, (∀ x ∈ items, P x) → P (Json.arr items))
    (hobj : ∀ fields, (∀ kv ∈ fields, P kv.2) → P (Json.obj fields)) :
    ∀ j, P j
  | Json.null => hnull
  | Json.bool b => hbool b
  | Json.num n => hnum n
  | Json.str s => hstr s
  | Json.arr items =>
      harr items (fun x _ => Json.recMem hnull hbool hnum hstr harr hobj x)
  | Json.obj fields =>
      hobj fields (fun kv _ => Json.recMem hnull hbool hnum hstr harr hobj kv.2)
decreasing_by
  · rename_i hx
    have h := List.sizeOf_lt_of_mem hx
    simp only [Json.arr.sizeOf_spec]
    omega
  · rename_i hkv
    have h := List.sizeOf_lt_of_mem hkv
    obtain ⟨k, v⟩ := kv
    simp only [Prod.mk.sizeOf_spec, Json.obj.sizeOf_spec] at h ⊢
    omega

/-- Unfolding equation for `sortKeys` on arrays. -/
theorem Json.sortKeys_arr (items : List Json) :
    (Json.arr items).sortKeys = Json.arr (items.map Json.sortKeys) := by
  rw [Json.sortKeys]
  rw [List.attach_map_val items Json.sortKeys]

/-- Unfolding equation for `sortKeys` on objects. -/
theorem Json.sortKeys_obj (fields : List (String × Json)) :
    (Json.obj fields).sortKeys =
      Json.obj ((fields.map (fun kv => (kv.1, kv.2.sortKeys))).mergeSort keyLe) := by
  rw [Json.sortKeys]
  rw [List.attach_map_val fields (fun kv => (kv.1, kv.2.sortKeys))]

/-- The code-point order on character lists is total. -/
theorem lexLe_total : ∀ as bs : List Char, (lexLe as bs || lexLe bs as) = true := by
  intro as
  induction as with
  | nil => intro bs; simp [lexLe]
  | cons a as ih =>
    intro bs
    cases bs with
    | nil => simp [lexLe]
    | cons b bs =>
      by_cases h1 : a.toNat < b.toNat
      · have h2 : ¬ b.toNat < a.toNat := by omega
        simp [lexLe, h1, h2]
      · by_cases h2 : b.toNat < a.toNat
        · simp [lexLe, h1, h2]
        · simp [lexLe, h1, h2, ih bs]

/-- The code-point order on character lists is transitive. -/
theorem lexLe_trans :
    ∀ as bs cs : List Char, lexLe as bs = true → lexLe bs cs = true → lexLe as cs = true := by
  intro as
  induction as with
  | nil => intro bs cs _ _; simp [lexLe]
  | cons a as ih =>
    intro bs cs hab hbc
    cases bs with
    | nil => simp [lexLe] at hab
    | cons b bs =>
      cases cs with
      | nil => simp [lexLe] at hbc
      | cons c cs =>
        by_cases hab1 : a.toNat < b.toNat
        · by_cases hbc1 : b.toNat < c.toNat
          · have : a.toNat < c.toNat := by omega
            simp [lexLe, this]
          · by_cases hbc2 : c.toNat < b.toNat
            · simp [lexLe, hbc1, hbc2] at hbc
            · have heq : b.toNat = c.toNat := by omega
              have : a.toNat < c.toNat := by omega
              simp [lexLe, this]
        · by_cases hab2 : b.toNat < a.toNat
          · simp [lexLe, hab1, hab2] at hab
          · have heqab : a.toNat = b.toNat := by omega
            simp [lexLe, hab1, hab2] at hab
            by_cases hbc1 : b.toNat < c.toNat
            · have : a.toNat < c.toNat := by omega
              simp [lexLe, this]
            · by_cases hbc2 : c.toNat < b.toNat
              · simp [lexLe, hbc1, hbc2] at hbc
              · simp [lexLe, hbc1, hbc2] at hbc
                have h1 : ¬ a.toNat < c.toNat := by omega
                have h2 : ¬ c.toNat < a.toNat := by omega
                simp [lexLe, h1, h2, ih bs cs hab hbc]

/-- The key order on object entries is transitive. -/
theorem keyLe_trans (a b c : String × Json) :
    keyLe a b = true → keyLe b c = true → keyLe a c = true :=
  lexLe_trans a.1.data b.1.data c.1.data

/-- The key order on object entries is total. -/
theorem keyLe_total (a b : String × Json) : (keyLe a b || keyLe b a) = true :=
  lexLe_total a.1.data b.1.data

/-- Sorting object keys is idempotent: a document whose objects are already
in canonical key order is left unchanged by another canonicalization. -/
theorem Json.sortKeys_idem : ∀ j : Json, j.sortKeys.sortKeys = j.sortKeys := by
  intro j
  induction j using Json.recMem with
  | hnull => simp [Json.sortKeys]
  | hbool b => simp [Json.sortKeys]
  | hnum n => simp [Json.sortKeys]
  | hstr s => simp [Json.sortKeys]
  | harr items ih =>
    rw [Json.sortKeys_arr, Json.sortKeys_arr, List.map_map]
    have : items.map (Json.sortKeys ∘ Json.sortKeys) = items.map Json.sortKeys :=
      List.map_congr_left (fun x hx => ih x hx)
    rw [this]
  | hobj fields ih =>
    rw [Json.sortKeys_obj, Json.sortKeys_obj]
    have hmap :
        ((fields.map (fun kv => (kv.1, kv.2.sortKeys))).mergeSort keyLe).map
            (fun kv => (kv.1, kv.2.sortKeys)) =
          (fields.map (fun kv => (kv.1, kv.2.sortKeys))).mergeSort keyLe := by
      have hid : ∀ kv ∈ (fields.map (fun kv => (kv.1, kv.2.sortKeys))).mergeSort keyLe,
          (kv.1, kv.2.sortKeys) = kv := by
        intro kv hkv
        have hmem : kv ∈ fields.map (fun kv => (kv.1, kv.2.sortKeys)) :=
          (List.mergeSort_perm _ keyLe).mem_iff.mp hkv
        obtain ⟨kv0, hkv0, rfl⟩ := List.mem_map.mp hmem
        simp only
        rw [ih kv0 hkv0]
      calc ((fields.map (fun kv => (kv.1, kv.2.sortKeys))).mergeSort keyLe).map
            (fun kv => (kv.1, kv.2.sortKeys))
          = ((fields.map (fun kv => (kv.1, kv.2.sortKeys))).mergeSort keyLe).map id :=
            List.map_congr_left (fun kv hkv => hid kv hkv)
        _ = (fields.map (fun kv => (kv.1, kv.2.sortKeys))).mergeSort keyLe := List.map_id _
    rw [hmap]
    rw [List.mergeSort_of_sorted
      (List.sorted_mergeSort (fun a b c => keyLe_trans a b c) keyLe_total _)]

/-- C1: `authenticate_user` returns `None` exactly when the username lookup
finds no record, or the password verifier rejects the password against the
stored hash, or the record is inactive; the checks run in that order with
fail-fast short-circuit (on a failed lookup the result is `None` for every
possible verifier, which is therefore never consulted), and all three
failure causes collapse to the same `None`; otherwise the full record is
returned. -/
theorem authenticate_user_spec (verify : String → String → Bool)
    (users : List UserRecord) (u p : String) :
    (authenticate_user verify users u p = none ↔
      get_user_by_username users u = none ∨
        ∃ r, get_user_by_username users u = some r ∧
          (verify p r.password_hash = false ∨ r.is_active = false)) ∧
    (∀ r, authenticate_user verify users u p = some r ↔
      get_user_by_username users u = some r ∧ verify p r.password_hash = true ∧
        r.is_active = true) ∧
    (get_user_by_username users u = none →
      ∀ v2 : String → String → Bool, authenticate_user v2 users u p = none) := by
  cases h : get_user_by_username users u with
  | none =>
    refine ⟨?_, ?_, ?_⟩
    · simp [authenticate_user, h]
    · intro r; simp [authenticate_user, h]
    · intro _ v2; simp [authenticate_user, h]
  | some user =>
    cases hv : verify p user.password_hash with
    | false =>
      refine ⟨?_, ?_, ?_⟩
      · simp [authenticate_user, h, hv]
      · intro r
        constructor
        · intro hr; simp [authenticate_user, h, hv] at hr
        · rintro ⟨hr, hvr, _⟩
          cases Option.some.inj hr
          rw [hv] at hvr
          exact absurd hvr (by simp)
      · intro hn; exact absurd hn (Option.some_ne_none user)
    | true =>
      cases ha : user.is_active with
      | false =>
        refine ⟨?_, ?_, ?_⟩
        · simp [authenticate_user, h, hv, ha]
        · intro r
          constructor
          · intro hr; simp [authenticate_user, h, hv, ha] at hr
          · rintro ⟨hr, _, har⟩
            cases Option.some.inj hr
            rw [ha] at har
            exact absurd har (by simp)
        · intro hn; exact absurd hn (Option.some_ne_none user)
      | true =>
        refine ⟨?_, ?_, ?_⟩
        · simp [authenticate_user, h, hv, ha]
        · intro r
          constructor
          · intro hr
            simp [authenticate_user, h, hv, ha] at hr
            cases hr
            exact ⟨rfl, hv, ha⟩
          · rintro ⟨hr, _, _⟩
            cases Option.some.inj hr
            simp [authenticate_user, h, hv, ha]
        · intro hn; exact absurd hn (Option.some_ne_none user)

/-- Witness for C1: against an empty store the lookup fails and
authentication returns `None` for an arbitrary verifier. -/
theorem authenticate_user_spec_witness :
    authenticate_user (fun _ _ => false) [] "alice" "secret12" = none :=
  (authenticate_user_spec (fun _ _ => true) [] "alice" "secret12").2.2 rfl
    (fun _ _ => false)

/-- C2: verifying a password against its own hash succeeds, and verifying a
password against the hash of any different password fails. -/
theorem hash_verify_spec (salt : Nat) (p q : String) :
    verify_password p (get_password_hash salt p) = true ∧
    (p ≠ q → verify_password p (get_password_hash salt q) = false) := by
  constructor
  · simp [verify_password, get_password_hash]
  · intro hne
    simp only [verify_password, get_password_hash]
    rw [beq_eq_false_iff_ne]
    intro heq
    apply hne
    have hdata := congrArg String.data heq
    simp only [digestOf, String.data_append] at hdata
    have := List.append_cancel_left hdata
    exact (String.ext this).symm

/-- Witness for C2 at concrete passwords. -/
theorem hash_verify_spec_witness :
    verify_password "longenough" (get_password_hash 3 "longenough") = true ∧
    verify_password "longenough" (get_password_hash 3 "other-pass") = false :=
  ⟨(hash_verify_spec 3 "longenough" "other-pass").1,
   (hash_verify_spec 3 "longenough" "other-pass").2 (by decide)⟩

/-- C3: a token issued at `issue_time` with ttl `T` validates to its subject
at every time strictly before `issue_time + T`, and fails with
`ExpiredToken` at every time at or after `issue_time + T`. -/
theorem token_ttl_spec (secret : Nat) (subject : String) (issue_time ttl now : Nat) :
    (now < issue_time + ttl →
      validate secret now (issue secret subject issue_time ttl) = Except.ok subject) ∧
    (issue_time + ttl ≤ now →
      validate secret now (issue secret subject issue_time ttl) =
        Except.error ErrorKind.ExpiredToken) := by
  constructor
  · intro h
    have hn : ¬ (issue_time + ttl ≤ now) := by omega
    simp [validate, issue, hn]
  · intro h
    simp [validate, issue, h]

/-- Witness for C3: a token with ttl 5 issued at time 1 is valid at time 3
and expired at time 6. -/
theorem token_ttl_spec_witness :
    validate 7 3 (issue 7 "alice" 1 5) = Except.ok "alice" ∧
    validate 7 6 (issue 7 "alice" 1 5) = Except.error ErrorKind.ExpiredToken :=
  ⟨(token_ttl_spec 7 "alice" 1 5 3).1 (by decide),
   (token_ttl_spec 7 "alice" 1 5 6).2 (by decide)⟩

/-- The username validator accepts exactly the alphanumeric usernames of
length at least 3. -/
theorem validate_username_ok_iff (u : String) :
    (∃ x, validate_username u = Except.ok x) ↔
      (3 ≤ u.length ∧ u.data.all Char.isAlphanum = true) := by
  by_cases h3 : u.length < 3
  · have : ¬ 3 ≤ u.length := by omega
    simp [validate_username, h3, this]
  · have hlen : u.data.length = u.length := rfl
    have hne : u.data.isEmpty = false := by
      cases hd : u.data with
      | nil => exfalso; apply h3; rw [← hlen, hd]; simp
      | cons c cs => rfl
    by_cases hal : u.data.all Char.isAlphanum
    · have : 3 ≤ u.length := by omega
      simp [validate_username, h3, pyIsAlnum, hne, hal, this]
    · simp [validate_username, h3, pyIsAlnum, hne, hal]

/-- The password validator accepts exactly the passwords of length at
least 8. -/
theorem validate_password_ok_iff (p : String) :
    (∃ x, validate_password p = Except.ok x) ↔ 8 ≤ p.length := by
  by_cases h8 : p.length < 8
  · have : ¬ 8 ≤ p.length := by omega
    simp [validate_password, h8, this]
  · have : 8 ≤ p.length := by omega
    simp [validate_password, h8, this]

/-- Pydantic accepts a `UserCreate` body exactly when the email format check
and both field validators pass. -/
theorem parseUserCreate_ok_iff (emailOk : String → Bool) (e u p : String) (a : Bool) :
    (∃ uc, parseUserCreate emailOk e u p a = Except.ok uc) ↔
      (emailOk e = true ∧ (∃ x, validate_username u = Except.ok x) ∧
        ∃ x, validate_password p = Except.ok x) := by
  cases hem : emailOk e with
  | false =>
    cases hvu : validate_username u <;> cases hvp : validate_password p <;>
      simp [parseUserCreate, hem, hvu, hvp]
  | true =>
    cases hvu : validate_username u <;> cases hvp : validate_password p <;>
      simp [parseUserCreate, hem, hvu, hvp]

/-- Modelled from the spec: §7 boundary translation of a pydantic
`ValidationError` — HTTP 400 carrying the field-level error details (the
translation layer is not under src/). -/
def validationErrorBoundary (errs : List String) : HttpError :=
  { status := 400, detail := String.intercalate "; " errs }

/-- The request boundary of a body-validated endpoint: a rejected body is
answered through the `ValidationError` translation, an accepted one is
handed to the handler. -/
def requestBoundary (emailOk : String → Bool) (e u p : String) (a : Bool) :
    Except HttpError UserCreate :=
  match parseUserCreate emailOk e u p a with
  | Except.ok uc => Except.ok uc
  | Except.error errs => Except.error (validationErrorBoundary errs)

/-- C5: with a well-formed email, `UserCreate` validation accepts an input
exactly when the password has at least 8 characters and the username has at
least 3 characters, all alphanumeric; every rejected input is answered as a
`ValidationError` translated to HTTP status 400 with the field-level
detail. -/
theorem userCreate_validation_spec (emailOk : String → Bool) (e u p : String) (a : Bool)
    (he : emailOk e = true) :
    ((∃ uc, parseUserCreate emailOk e u p a = Except.ok uc) ↔
      (8 ≤ p.length ∧ 3 ≤ u.length ∧ u.data.all Char.isAlphanum = true)) ∧
    (∀ errs, parseUserCreate emailOk e u p a = Except.error errs →
      requestBoundary emailOk e u p a = Except.error (validationErrorBoundary errs) ∧
      (validationErrorBoundary errs).status = 400) := by
  constructor
  · rw [parseUserCreate_ok_iff, validate_username_ok_iff, validate_password_ok_iff]
    simp [he]
    tauto
  · intro errs herr
    exact ⟨by simp [requestBoundary, herr], rfl⟩

/-- Witness for C5: the example registration input from the spec is
accepted. -/
theorem userCreate_validation_spec_witness :
    ∃ uc, parseUserCreate (fun _ => true) "a@x.com" "alice123" "longenough" true =
      Except.ok uc :=
  (userCreate_validation_spec (fun _ => true) "a@x.com" "alice123" "longenough" true
    rfl).1.mpr (by decide)

/-- C4: against a store containing neither the email nor the username of a
valid registration input, `register` succeeds and appends the new record;
any second registration reusing the same email or the same username fails
with a duplicate error carried as HTTP status 400 and leaves the store
unchanged. -/
theorem register_duplicate_spec (hash : String → String) (now now2 : Nat) (s : Store)
    (uc : UserCreate)
    (_hpw : 8 ≤ uc.password.length)
    (_hun : validate_username uc.username = Except.ok uc.username)
    (he : get_user_by_email s.users uc.email = none)
    (hu : get_user_by_username s.users uc.username = none) :
    ∃ r s2,
      register hash now s uc = (Except.ok r, s2) ∧
      r.email = uc.email ∧ r.username = uc.username ∧ s2.users = s.users ++ [r] ∧
      (∀ uc' : UserCreate, uc'.email = uc.email ∨ uc'.username = uc.username →
        ∃ d, register hash now2 s2 uc' =
          (Except.error { status := 400, detail := d }, s2)) := by
  refine ⟨(create_user hash now s uc).1, (create_user hash now s uc).2, ?_, rfl, rfl, rfl, ?_⟩
  · simp [register, he, hu]
  · intro uc' hdup
    have hre : (create_user hash now s uc).1.email = uc.email := rfl
    have hru : (create_user hash now s uc).1.username = uc.username := rfl
    have husers : (create_user hash now s uc).2.users =
        s.users ++ [(create_user hash now s uc).1] := rfl
    cases hcase : get_user_by_email (create_user hash now s uc).2.users uc'.email with
    | some x =>
      exact ⟨"Email already registered", by simp [register, hcase]⟩
    | none =>
      have huser' : uc'.username = uc.username := by
        rcases hdup with hde | hdu
        · exfalso
          rw [husers, hde] at hcase
          unfold get_user_by_email at hcase he
          rw [List.find?_append, he, Option.none_or] at hcase
          simp [List.find?, hre] at hcase
        · exact hdu
      have hfindu : get_user_by_username (create_user hash now s uc).2.users uc'.username
          = some (create_user hash now s uc).1 := by
        rw [husers, huser']
        unfold get_user_by_username at hu ⊢
        rw [List.find?_append, hu, Option.none_or]
        simp [List.find?, hru]
      exact ⟨"Username already taken", by simp [register, hcase, hfindu]⟩

/-- Witness for C4: registering the spec's example user against the empty
store, then re-registering with the same username, yields the 400 duplicate
error. -/
theorem register_duplicate_spec_witness :
    ∃ r s2,
      register (fun pw => pw ++ "$h") 0 { users := [], nextId := 1 }
        { email := "a@x.com", username := "alice123", password := "longenough" } =
        (Except.ok r, s2) ∧
      r.email = "a@x.com" ∧ r.username = "alice123" ∧ s2.users = [] ++ [r] ∧
      (∀ uc' : UserCreate, uc'.email = "a@x.com" ∨ uc'.username = "alice123" →
        ∃ d, register (fun pw => pw ++ "$h") 0 s2 uc' =
          (Except.error { status := 400, detail := d }, s2)) :=
  register_duplicate_spec (fun pw => pw ++ "$h") 0 0 { users := [], nextId := 1 }
    { email := "a@x.com", username := "alice123", password := "longenough" }
    (by decide) rfl rfl rfl

/-- C6 (code bug): when a non-HTTP exception with message `boom` escapes the
`register` or `login` body, the handler does answer with status 500, but its
detail embeds the exception's own text — `str(e)` appears verbatim inside
the detail string — contradicting the spec's demand for a generic message
that never leaks internals. -/
theorem auth_500_leaks_exception_content :
    registerCatch (Except.error (PyExc.exc "boom")) =
      Except.error { status := 500, detail := "Registration failed: boom" } ∧
    loginCatch (Except.error (PyExc.exc "boom")) =
      Except.error { status := 500, detail := "Login failed: boom" } ∧
    (∃ pre post, ("Registration failed: boom" : String) = pre ++ "boom" ++ post) ∧
    (∃ pre post, ("Login failed: boom" : String) = pre ++ "boom" ++ post) :=
  ⟨rfl, rfl, ⟨"Registration failed: ", "", by decide⟩, ⟨"Login failed: ", "", by decide⟩⟩

/-- Counterexample for C7: the `/health` endpoint of main.py answers with the
plain object `{"status": "healthy"}`, which carries none of the four
envelope fields, so not every response of the application carries the
envelope shape. -/
theorem health_endpoint_lacks_envelope :
    hasEnvelope health_check_response = false ∧ hasEnvelope root_response = false := by
  constructor <;> decide

/-- C7 (amended): every response built from `ResponseSchema` — the declared
response model of every `/auth` and `/tools` endpoint — carries all four
envelope fields `success`, `message`, `data`, `errors`. -/
theorem responseSchema_carries_envelope (r : ResponseSchema) :
    hasEnvelope r.render = true := by
  cases r with
  | mk success message data errors =>
    cases data <;> cases errors <;> rfl

/-- C8: converting a JSON document to YAML with `convert_yaml` and
converting the result back to JSON yields a document semantically
equivalent to the original, equal up to object key order. -/
theorem json_yaml_roundtrip_spec (j : Json) :
    (json_yaml_roundtrip j).equivUpToKeyOrder j := by
  unfold json_yaml_roundtrip convert_yaml_to_json_data convert_json_to_yaml_data
    Json.equivUpToKeyOrder
  exact Json.sortKeys_idem j

/-- The deterministic name-based UUID function of the `uuid` library (a
stand-in), shared by every call. -/
def modelUuid5 (nsU name : String) : String := nsU ++ ":" ++ name

/-- The `uuid.UUID` constructor (a stand-in), shared by every call. -/
def modelParseUuid (s : String) : Option String := some s

/-- The `uuid.uuid1` generator (a stand-in), per-call. -/
def modelUuid1 (i : Nat) : String := "u1-" ++ toString i

/-- The library environment seen by a first call, whose `uuid.uuid4` draws
came out as `r-a`. -/
def envCallA : UuidEnv :=
  { rand := fun _ => "r-a", uuid1 := modelUuid1
  , uuid5 := modelUuid5, parseUuid := modelParseUuid }

/-- The library environment seen by a second call, identical except that its
`uuid.uuid4` draws came out as `r-b`. -/
def envCallB : UuidEnv :=
  { rand := fun _ => "r-b", uuid1 := modelUuid1
  , uuid5 := modelUuid5, parseUuid := modelParseUuid }

/-- Counterexample for C9: with the fixed namespace string `""` (a perfectly
fixed argument value), two version-5 calls that agree on every deterministic
library function can return different lists, because Python's `if not
namespace:` treats the empty string as absent and substitutes a fresh random
v4 namespace. -/
theorem generate_uuid_v5_empty_namespace_nondeterministic :
    envCallA.uuid5 = envCallB.uuid5 ∧ envCallA.parseUuid = envCallB.parseUuid ∧
    generate_uuid envCallA 5 1 (some "") ≠ generate_uuid envCallB 5 1 (some "") := by
  refine ⟨rfl, rfl, ?_⟩
  have ga : generate_uuid envCallA 5 1 (some "") =
      Except.ok (["r-a:devpockit-0"], 5, 1) := rfl
  have gb : generate_uuid envCallB 5 1 (some "") =
      Except.ok (["r-b:devpockit-0"], 5, 1) := rfl
  rw [ga, gb]
  intro h
  exact absurd (Except.ok.inj h) (by decide)

/-- C9 (amended): `generate_uuid` with version 5, a fixed non-empty
namespace string and a fixed count is deterministic: two calls agreeing on
the deterministic library functions return the identical result, whatever
randomness each call draws. -/
theorem generate_uuid_v5_deterministic (e1 e2 : UuidEnv) (count : Nat) (ns : String)
    (hns : ns ≠ "") (h5 : e1.uuid5 = e2.uuid5) (hp : e1.parseUuid = e2.parseUuid) :
    generate_uuid e1 5 count (some ns) = generate_uuid e2 5 count (some ns) := by
  simp only [generate_uuid, hp, h5]
  simp [hns]

/-- Witness for the amended C9 at a concrete namespace and count. -/
theorem generate_uuid_v5_deterministic_witness :
    generate_uuid envCallA 5 2 (some "6ba7b810-9dad-11d1-80b4-00c04fd430c8") =
    generate_uuid envCallB 5 2 (some "6ba7b810-9dad-11d1-80b4-00c04fd430c8") :=
  generate_uuid_v5_deterministic envCallA envCallB 2
    "6ba7b810-9dad-11d1-80b4-00c04fd430c8" (by decide) rfl rfl

/-- C10: the three tool endpoints are total at the handler level: any
exception raised by the underlying service is caught and answered as a
`ResponseSchema` with success false and a non-null errors list containing
the error message, never as a propagated exception or an HTTP error
status. -/
theorem tools_handlers_catch_all (e : String) (result : List (String × Json))
    (env : UuidEnv) (version count : Nat) (nspace : Option String) :
    format_json_endpoint (Except.error e) =
      { success := false, message := "JSON formatting failed", data := none
      , errors := some [Json.str e] } ∧
    convert_yaml_endpoint (Except.error e) =
      { success := false, message := "Conversion failed", data := none
      , errors := some [Json.str e] } ∧
    (format_json_endpoint (Except.ok result)).success = true ∧
    (convert_yaml_endpoint (Except.ok result)).success = true ∧
    (∀ m, generate_uuid env version count nspace = Except.error m →
      generate_uuid_endpoint env version count nspace =
        { success := false, message := "UUID generation failed", data := none
        , errors := some [Json.str m] }) := by
  refine ⟨rfl, rfl, rfl, rfl, ?_⟩
  intro m hm
  simp [generate_uuid_endpoint, hm]

/-- Witness for C10: an unsupported UUID version raises inside the service
and the endpoint answers with the caught error in the envelope. -/
theorem tools_handlers_catch_all_witness :
    generate_uuid_endpoint envCallA 7 1 none =
      { success := false, message := "UUID generation failed", data := none
      , errors := some [Json.str "UUID generation error: Unsupported UUID version: 7"] } :=
  (tools_handlers_catch_all "x" [] envCallA 7 1 none).2.2.2.2
    "UUID generation error: Unsupported UUID version: 7" rfl

end DevPockit
